import Mathlib

/-!
Shallow embedding of `src/source.cpp` (librealsense `frame_source` and the
`frame_queue_size` option), together with theorems checking the
natural-language specification against it.

Modelling conventions:
- C++ machine values are modelled with `Nat`/`Int` (with explicit `% 2 ^ 32`
  where a `uint32_t` cast matters) and `float` option values with `Rat`.
- Throwing code is modelled with explicit outcome types (`Except` / dedicated
  outcome inductives); dereferencing a null `shared_ptr` is modelled as a
  designated `null_deref` outcome (undefined behavior in C++).
- `std::map<rs2_extension_type, std::shared_ptr<archive_interface>>` is
  modelled as `rs2_extension_type → Option (Option archive_t)`: the outer
  `Option` is key presence, the inner `Option` is the shared pointer being
  null or not (after `reset`, keys stay present with a null pointer).
- Code of the repository that is not under `src/` (the archive/pool, the
  option base class) is modelled from the spec; such definitions carry a
  doc comment starting with `Modelled from the spec:`.
-/

/-- Frame kinds (`rs2_extension_type`), in enum declaration order. -/
inductive rs2_extension_type
  | unknown
  | debug
  | info
  | motion
  | options
  | video
  | roi
  | video_frame
  | motion_frame
  | composite_frame
  | points
  | count
deriving DecidableEq, Repr

/-- Enum declaration order, used for `std::map` iteration order in `flush`. -/
def extension_type_order : List rs2_extension_type :=
  [.unknown, .debug, .info, .motion, .options, .video, .roi,
   .video_frame, .motion_frame, .composite_frame, .points, .count]

/-- Errors thrown by the code under `src/`, by C++ exception class. -/
inductive rs_error
  | invalid_value (msg : String)
  | wrong_api_call_sequence (msg : String)
deriving DecidableEq, Repr

/-- Modelled from the spec: the metadata-parser registry is an opaque
keyed-lookup collaborator; the core does not interpret its contents. -/
structure metadata_parser_map where
  entries : List (Nat × Nat) := []
deriving DecidableEq, Repr

/-- Per-frame metadata passed to `alloc_frame` (`frame_additional_data`). -/
structure frame_additional_data where
  timestamp : Int := 0
  frame_number : Nat := 0
deriving DecidableEq, Repr

/-- Modelled from the spec: a Pool ("archive") instance for one frame kind,
as constructed by `make_archive` (archive code is not under `src/`); it
records the kind it serves and the metadata registry it was given. -/
structure archive_t where
  kind : rs2_extension_type
  metadata : metadata_parser_map
deriving DecidableEq, Repr

/-- Modelled from the spec: `make_archive(type, …)` constructs the Pool for
one frame kind. -/
def make_archive (ty : rs2_extension_type) (mp : metadata_parser_map) : archive_t :=
  { kind := ty, metadata := mp }

/-- A pooled frame (`rs2_frame`): it knows the kind of the pool that owns it
(`get_owner` resolves to the allocating archive) and carries an identity. -/
structure rs2_frame where
  owner : rs2_extension_type
  id : Nat
deriving DecidableEq, Repr

/-- Modelled from the spec: `archive_interface::alloc_and_track` returns a
new frame owned by this pool. -/
def archive_t.alloc_and_track (a : archive_t) (size : Nat)
    (ad : frame_additional_data) (requires_memory : Bool) : rs2_frame :=
  { owner := a.kind, id := size + ad.frame_number + (if requires_memory then 0 else 0) }

/-- A `frame_holder`: a nullable handle referencing at most one frame. -/
structure frame_holder where
  frame : Option rs2_frame
deriving DecidableEq, Repr

/-- A fault escaping the user callback (`catch (...)` catches anything, so
the payload is arbitrary; a code suffices for the model). -/
structure CbFault where
  code : Nat
deriving DecidableEq, Repr

/-- The user callback target (`rs2_frame_callback::on_frame`); it may throw. -/
def frame_callback : Type := rs2_frame → Except CbFault Unit

/-- The `frame_source` state: the nullable callback slot, the published-size
cell, the time-service reading, and the per-kind archive map. -/
structure frame_source where
  callback : Option frame_callback
  max_publish_list_size : Nat
  ts : Int
  archive : rs2_extension_type → Option (Option archive_t)

/-- The `frame_source` constructor: null callback, size 16, empty map. -/
def frame_source.mk_initial (ts0 : Int) : frame_source :=
  { callback := none, max_publish_list_size := 16, ts := ts0, archive := fun _ => none }

/-- `frame_source::init`: installs one archive per supported kind
(`RS2_EXTENSION_TYPE_VIDEO_FRAME`, `RS2_EXTENSION_TYPE_COMPOSITE_FRAME`)
into the map; other entries are untouched. -/
def frame_source.init (s : frame_source) (mp : metadata_parser_map) : frame_source :=
  { s with archive := fun ty =>
      if ty = .video_frame ∨ ty = .composite_frame then some (some (make_archive ty mp))
      else s.archive ty }

/-- `frame_source::reset`: nulls the callback slot and resets every mapped
shared pointer (`kvp.second.reset()`), keeping the map keys. -/
def frame_source.reset (s : frame_source) : frame_source :=
  { s with callback := none,
           archive := fun ty => (s.archive ty).map (fun _ => none) }

/-- `frame_source::set_callback`: replaces the callback slot (may be null). -/
def frame_source.set_callback (s : frame_source) (cb : Option frame_callback) : frame_source :=
  { s with callback := cb }

/-- Outcome of `frame_source::alloc_frame`. -/
inductive alloc_outcome
  | ok (f : rs2_frame)
  | throws (e : rs_error)
  | null_deref
deriving DecidableEq, Repr

/-- `frame_source::alloc_frame`: `_archive.find(type)`; a missing key throws
`wrong_api_call_sequence_exception`; a present key delegates through the
shared pointer without a null check, so a null pointer (the state after
`reset`) is dereferenced. -/
def frame_source.alloc_frame (s : frame_source) (ty : rs2_extension_type) (size : Nat)
    (ad : frame_additional_data) (requires_memory : Bool) : alloc_outcome :=
  match s.archive ty with
  | none => .throws (.wrong_api_call_sequence "Requested frame type is not supported!")
  | some none => .null_deref
  | some (some a) => .ok (a.alloc_and_track size ad requires_memory)

/-- `frame_source::flush`: iterates the map in key order and delegates to
each non-null pool (`if (kvp.second) kvp.second->flush()`); the result lists
the kinds whose pool `flush` was invoked. -/
def frame_source.flush (s : frame_source) : List rs2_extension_type :=
  extension_type_order.filter fun ty =>
    match s.archive ty with
    | some (some _) => true
    | _ => false

/-- Effects accumulated inside the `try` block of `invoke_callback`; they
survive an unwinding callback (the swap happens before `on_frame`). -/
structure invoke_eff where
  holder : Option rs2_frame
  callback_start_log : Option (rs2_frame × Int)
  delivered : Option rs2_frame
deriving DecidableEq, Repr

/-- The `try` block of `invoke_callback` on a non-empty holder: logs the
callback-start timestamp, then — only if a callback target is present —
swaps the holder's frame pointer with a null `ref` and invokes
`on_frame(ref)`, which may throw. -/
def invoke_try_body (cb : Option frame_callback) (t : Int) (f : rs2_frame) :
    Except CbFault Unit × invoke_eff :=
  match cb with
  | none =>
      (Except.ok (), { holder := some f, callback_start_log := some (f, t), delivered := none })
  | some c =>
      (c f, { holder := none, callback_start_log := some (f, t), delivered := some f })

/-- True when the `try` block exited by a thrown fault. -/
def except_threw (r : Except CbFault Unit) : Bool :=
  match r with
  | .ok _ => false
  | .error _ => true

/-- Observable result of one `frame_source::invoke_callback` call. -/
structure invoke_result where
  holder_after : Option rs2_frame
  token_from : Option rs2_extension_type
  callback_start_log : Option (rs2_frame × Int)
  delivered : Option rs2_frame
  fault_suppressed : Bool
deriving DecidableEq, Repr

/-- `frame_source::invoke_callback`: guarded by `if (frame)`; acquires a
callback token from the frame's owning pool
(`frame.frame->get()->get_owner()->begin_callback()`), runs the `try` block,
and catches any escaping fault (`catch (...)` logs and suppresses it). -/
def frame_source.invoke_callback (s : frame_source) (h : frame_holder) : invoke_result :=
  match h.frame with
  | none =>
      { holder_after := none, token_from := none, callback_start_log := none,
        delivered := none, fault_suppressed := false }
  | some f =>
      { holder_after := (invoke_try_body s.callback s.ts f).2.holder,
        token_from := some f.owner,
        callback_start_log := (invoke_try_body s.callback s.ts f).2.callback_start_log,
        delivered := (invoke_try_body s.callback s.ts f).2.delivered,
        fault_suppressed := except_threw (invoke_try_body s.callback s.ts f).1 }

/-- The published-size option range `{0, 32, 1, 16}` (min, max, step,
default) used by `frame_source::get_published_size_option`. -/
structure option_range where
  min : Rat
  max : Rat
  step : Rat
  deflt : Rat
deriving DecidableEq, Repr

/-- Modelled from the spec: `option_base::is_valid` (option code is not
under `src/`): a value is valid when it lies in `[min, max]` and is aligned
with `step` (the offset from `min` is a whole number of steps). -/
def option_base.is_valid (r : option_range) (v : Rat) : Bool :=
  decide (r.min ≤ v) && decide (v ≤ r.max) && (((v - r.min) / r.step).den == 1)

/-- The range passed in `frame_source::get_published_size_option`. -/
def published_size_range : option_range :=
  { min := 0, max := 32, step := 1, deflt := 16 }

/-- The C++ `static_cast<uint32_t>(value)` on a validated (hence
non-negative) float value: truncation toward zero, reduced mod `2 ^ 32`. -/
def uint32_of_rat (v : Rat) : Nat := v.floor.toNat % 2 ^ 32

/-- `frame_queue_size::set`: throws `invalid_value_exception` when the value
is invalid (leaving the cell unchanged), else stores the cast value into the
backing atomic cell. Returns the outcome and the cell after the call. -/
def frame_queue_size.set (r : option_range) (cell : Nat) (v : Rat) :
    Except rs_error Unit × Nat :=
  if option_base.is_valid r v then (Except.ok (), uint32_of_rat v)
  else (Except.error (.invalid_value "set(frame_queue_size) failed! Given value is out of range."),
        cell)

/-- `frame_queue_size::query`: `static_cast<float>(_ptr->load())`. -/
def frame_queue_size.query (cell : Nat) : Rat := (cell : Rat)

/-! Concrete states and callbacks used by the witness theorems. -/

/-- A concrete user callback: faults on frames with id 0, succeeds otherwise. -/
def wCb : frame_callback := fun fr =>
  if fr.id = 0 then Except.error { code := 7 } else Except.ok ()

/-- A concrete initialized `frame_source` with `wCb` registered. -/
def wS : frame_source :=
  ((frame_source.mk_initial 0).init {}).set_callback (some wCb)

/-- A concrete initialized `frame_source` with no callback registered. -/
def wS0 : frame_source := (frame_source.mk_initial 0).init {}

/-- A concrete video frame on which `wCb` faults. -/
def wF : rs2_frame := { owner := .video_frame, id := 0 }

/-- A concrete video frame on which `wCb` succeeds. -/
def wG : rs2_frame := { owner := .video_frame, id := 1 }

/-! Helper lemmas. -/

/-- Validity for the published-size range unfolds to membership in `[0, 32]`
together with step-1 alignment (an integral value). -/
theorem is_valid_published_iff (v : Rat) :
    option_base.is_valid published_size_range v = true ↔
      (0 ≤ v ∧ v ≤ 32 ∧ v.den = 1) := by
  simp [option_base.is_valid, published_size_range, sub_zero, div_one, and_assoc]

/-! Claim theorems. -/

/-- C7: `invoke_callback` on an empty handle is a no-op: no callback token is
acquired, no timestamp is recorded, nothing is delivered, no fault arises,
and (the function being `const` over an untouched state) no orchestrator or
pool state changes. -/
theorem invoke_callback_empty_noop (s : frame_source) :
    s.invoke_callback { frame := none } =
      { holder_after := none, token_from := none, callback_start_log := none,
        delivered := none, fault_suppressed := false } := rfl

/-- C8: for every non-empty frame handle, the callback token guarding the
invocation is acquired from the pool owning that frame (the pool of the
frame's own kind), whatever the registered callback is — not from a single
fixed pool. -/
theorem invoke_token_from_owning_pool (s : frame_source) (f : rs2_frame) :
    (s.invoke_callback { frame := some f }).token_from = some f.owner := by
  cases hcb : s.callback <;>
    simp [frame_source.invoke_callback, invoke_try_body, hcb]

/-- C1: with a callback target registered, after `invoke_callback` on a
non-empty handle the orchestrator's retained reference is empty (the frame
pointer is swapped with a null `ref` before `on_frame`), so a second
`invoke_callback` with that same orchestrator-held handle is a no-op. -/
theorem invoke_callback_empties_holder (s : frame_source) (cb : frame_callback)
    (f : rs2_frame) (hcb : s.callback = some cb) :
    (s.invoke_callback { frame := some f }).holder_after = none ∧
    s.invoke_callback { frame := (s.invoke_callback { frame := some f }).holder_after } =
      { holder_after := none, token_from := none, callback_start_log := none,
        delivered := none, fault_suppressed := false } := by
  have h1 : (s.invoke_callback { frame := some f }).holder_after = none := by
    simp [frame_source.invoke_callback, invoke_try_body, hcb]
  exact ⟨h1, by rw [h1]; rfl⟩

/-- C1 witness: the concrete registered-callback state and video frame. -/
theorem invoke_callback_empties_holder_witness :
    (wS.invoke_callback { frame := some wF }).holder_after = none ∧
    wS.invoke_callback { frame := (wS.invoke_callback { frame := some wF }).holder_after } =
      { holder_after := none, token_from := none, callback_start_log := none,
        delivered := none, fault_suppressed := false } :=
  invoke_callback_empties_holder wS wCb wF rfl

/-- C2: a fault thrown by the user callback is caught and suppressed inside
`invoke_callback` (the call still returns a result, with the suppressed-fault
signal set), and — the state being untouched — subsequent `alloc_frame` and
`invoke_callback` calls on the same `frame_source` still succeed. -/
theorem callback_fault_suppressed (s : frame_source) (cb : frame_callback)
    (f g : rs2_frame) (fault : CbFault) (a : archive_t)
    (hcb : s.callback = some cb) (hf : cb f = Except.error fault)
    (hg : cb g = Except.ok ()) (ha : s.archive .video_frame = some (some a)) :
    (s.invoke_callback { frame := some f }).fault_suppressed = true ∧
    (s.invoke_callback { frame := some f }).delivered = some f ∧
    (∀ size ad rm, s.alloc_frame .video_frame size ad rm =
        .ok (a.alloc_and_track size ad rm)) ∧
    (s.invoke_callback { frame := some g }).delivered = some g ∧
    (s.invoke_callback { frame := some g }).fault_suppressed = false := by
  refine ⟨?_, ?_, ?_, ?_, ?_⟩ <;>
    simp [frame_source.invoke_callback, invoke_try_body, frame_source.alloc_frame,
          except_threw, hcb, hf, hg, ha]

/-- C2 witness: `wCb` faults on `wF` and succeeds on `wG` in state `wS`. -/
theorem callback_fault_suppressed_witness :
    (wS.invoke_callback { frame := some wF }).fault_suppressed = true ∧
    (wS.invoke_callback { frame := some wF }).delivered = some wF ∧
    (∀ size ad rm, wS.alloc_frame .video_frame size ad rm =
        .ok ((make_archive .video_frame {}).alloc_and_track size ad rm)) ∧
    (wS.invoke_callback { frame := some wG }).delivered = some wG ∧
    (wS.invoke_callback { frame := some wG }).fault_suppressed = false :=
  callback_fault_suppressed wS wCb wF wG { code := 7 } (make_archive .video_frame {})
    rfl rfl rfl rfl

/-- C9: with a null callback target, `invoke_callback` on a non-empty handle
still acquires the token from the frame's owning pool and still logs the
callback-start timestamp, but performs no swap: the handle still references
its frame after the body, and nothing is delivered and no fault arises. -/
theorem invoke_no_callback_keeps_handle (s : frame_source) (f : rs2_frame)
    (hcb : s.callback = none) :
    s.invoke_callback { frame := some f } =
      { holder_after := some f, token_from := some f.owner,
        callback_start_log := some (f, s.ts), delivered := none,
        fault_suppressed := false } := by
  simp [frame_source.invoke_callback, invoke_try_body, except_threw, hcb]

/-- C9 witness: the concrete no-callback state `wS0` and frame `wF`. -/
theorem invoke_no_callback_keeps_handle_witness :
    wS0.invoke_callback { frame := some wF } =
      { holder_after := some wF, token_from := some wF.owner,
        callback_start_log := some (wF, wS0.ts), delivered := none,
        fault_suppressed := false } :=
  invoke_no_callback_keeps_handle wS0 wF rfl

/-- C3: after `init`, allocating any kind outside {video_frame,
composite_frame} fails synchronously with the thrown
`wrong_api_call_sequence_exception("Requested frame type is not supported!")`
— the spec's `UnsupportedFrameKind` error — and allocates nothing. -/
theorem alloc_unsupported_kind (ts0 : Int) (mp : metadata_parser_map)
    (ty : rs2_extension_type) (size : Nat) (ad : frame_additional_data) (rm : Bool)
    (h1 : ty ≠ .video_frame) (h2 : ty ≠ .composite_frame) :
    ((frame_source.mk_initial ts0).init mp).alloc_frame ty size ad rm =
      .throws (.wrong_api_call_sequence "Requested frame type is not supported!") := by
  simp [frame_source.alloc_frame, frame_source.init, frame_source.mk_initial, h1, h2]

/-- C3 witness: allocating a motion frame after `init`. -/
theorem alloc_unsupported_kind_witness :
    ((frame_source.mk_initial 0).init {}).alloc_frame .motion_frame 4 {} true =
      .throws (.wrong_api_call_sequence "Requested frame type is not supported!") :=
  alloc_unsupported_kind 0 {} .motion_frame 4 {} true (by decide) (by decide)

/-- A concrete `frame_source` after `init` followed by `reset`. -/
def s_after_reset : frame_source := ((frame_source.mk_initial 0).init {}).reset

/-- C4 counterexample: after `reset`, allocating a supported kind does NOT
fail with a sequencing error: the archive map still holds the key with a
null pool pointer, and `alloc_frame` dereferences it (undefined behavior). -/
theorem alloc_after_reset_null_deref :
    s_after_reset.alloc_frame .video_frame 1024 {} true = .null_deref ∧
    s_after_reset.alloc_frame .video_frame 1024 {} true ≠
      .throws (.wrong_api_call_sequence "Requested frame type is not supported!") := by
  refine ⟨rfl, ?_⟩
  intro h
  rw [show s_after_reset.alloc_frame .video_frame 1024 {} true = .null_deref from rfl] at h
  exact absurd h (by simp)

/-- C4 amended: `alloc` before `init` fails synchronously with the
`wrong_api_call_sequence` (sequencing) exception for every kind; `alloc`
after `reset` with a supported kind dereferences the null pool pointer
(undefined behavior) rather than failing with a sequencing error. -/
theorem alloc_sequencing_amended (ts0 : Int) (mp : metadata_parser_map)
    (ty : rs2_extension_type) (size : Nat) (ad : frame_additional_data) (rm : Bool)
    (hty : ty = .video_frame ∨ ty = .composite_frame) :
    (frame_source.mk_initial ts0).alloc_frame ty size ad rm =
      .throws (.wrong_api_call_sequence "Requested frame type is not supported!") ∧
    (((frame_source.mk_initial ts0).init mp).reset).alloc_frame ty size ad rm =
      .null_deref := by
  constructor
  · simp [frame_source.alloc_frame, frame_source.mk_initial]
  · rcases hty with h | h <;> subst h <;>
      simp [frame_source.alloc_frame, frame_source.reset, frame_source.init,
            frame_source.mk_initial]

/-- C4 amended witness: the video kind. -/
theorem alloc_sequencing_amended_witness :
    (frame_source.mk_initial 0).alloc_frame .video_frame 8 {} true =
      .throws (.wrong_api_call_sequence "Requested frame type is not supported!") ∧
    (((frame_source.mk_initial 0).init {}).reset).alloc_frame .video_frame 8 {} true =
      .null_deref :=
  alloc_sequencing_amended 0 {} .video_frame 8 {} true (Or.inl rfl)

/-- C5: `set(v)` on a value outside `[0, 32]` or misaligned with step 1 (not
an integral value) fails with the `invalid_value` exception and leaves the
stored capacity unchanged: `query` after the failed `set` equals `query`
before it. -/
theorem set_invalid_value_unchanged (cell : Nat) (v : Rat)
    (hv : ¬ (0 ≤ v ∧ v ≤ 32 ∧ v.den = 1)) :
    (frame_queue_size.set published_size_range cell v).1 =
      Except.error
        (.invalid_value "set(frame_queue_size) failed! Given value is out of range.") ∧
    frame_queue_size.query (frame_queue_size.set published_size_range cell v).2 =
      frame_queue_size.query cell := by
  have h : option_base.is_valid published_size_range v = false := by
    rcases Bool.eq_false_or_eq_true (option_base.is_valid published_size_range v) with h | h
    · exact absurd ((is_valid_published_iff v).1 h) hv
    · exact h
  exact ⟨by simp [frame_queue_size.set, h], by simp [frame_queue_size.set, h]⟩

/-- C5 witness: the out-of-range value 33 with prior capacity 16. -/
theorem set_invalid_value_unchanged_witness :
    (frame_queue_size.set published_size_range 16 33).1 =
      Except.error
        (.invalid_value "set(frame_queue_size) failed! Given value is out of range.") ∧
    frame_queue_size.query (frame_queue_size.set published_size_range 16 33).2 =
      frame_queue_size.query 16 :=
  set_invalid_value_unchanged 16 33 (by decide)

/-- C6: for every valid capacity value (in `[0, 32]` and aligned with step
1), `set(v)` succeeds and a subsequent `query` returns `v`. -/
theorem set_query_roundtrip (cell : Nat) (v : Rat)
    (h0 : 0 ≤ v) (h32 : v ≤ 32) (hden : v.den = 1) :
    (frame_queue_size.set published_size_range cell v).1 = Except.ok () ∧
    frame_queue_size.query (frame_queue_size.set published_size_range cell v).2 = v := by
  have hvalid : option_base.is_valid published_size_range v = true :=
    (is_valid_published_iff v).2 ⟨h0, h32, hden⟩
  refine ⟨by simp [frame_queue_size.set, hvalid], ?_⟩
  simp only [frame_queue_size.set, hvalid, if_true, frame_queue_size.query, uint32_of_rat]
  have hnum : (v.num : Rat) = v := (Rat.den_eq_one_iff v).1 hden
  have hfloor : v.floor = v.num := by simp [Rat.floor, hden]
  have hnn : 0 ≤ v.num := Rat.num_nonneg.2 h0
  have hle : v.num ≤ 32 := by
    have : (v.num : Rat) ≤ (32 : Rat) := by rw [hnum]; exact h32
    exact_mod_cast this
  have hlt : v.num.toNat < 2 ^ 32 := by omega
  rw [hfloor, Nat.mod_eq_of_lt hlt, ← hnum]
  exact_mod_cast congrArg (fun z => ((z : Int) : Rat)) (Int.toNat_of_nonneg hnn)

/-- C6 witness: the valid value 5 with prior capacity 16. -/
theorem set_query_roundtrip_witness :
    (frame_queue_size.set published_size_range 16 5).1 = Except.ok () ∧
    frame_queue_size.query (frame_queue_size.set published_size_range 16 5).2 = 5 :=
  set_query_roundtrip 16 5 (by decide) (by decide) (by decide)

/-- C10: after `reset`, the per-kind map keeps its keys but every pool
pointer is null, and `flush` — which checks each pointer for null before
delegating — completes without delegating to any pool; likewise before
`init` (the freshly constructed state) `flush` delegates to nothing. -/
theorem reset_keeps_keys_flush_noop (s : frame_source) (ty : rs2_extension_type)
    (ts0 : Int) :
    (s.reset.archive ty).isSome = (s.archive ty).isSome ∧
    (s.reset.archive ty = none ∨ s.reset.archive ty = some none) ∧
    s.reset.flush = [] ∧
    (frame_source.mk_initial ts0).flush = [] := by
  refine ⟨?_, ?_, ?_, rfl⟩
  · cases h : s.archive ty <;> simp [frame_source.reset, h]
  · cases h : s.archive ty <;> simp [frame_source.reset, h]
  · simp only [frame_source.flush, frame_source.reset, List.filter_eq_nil_iff]
    intro a _
    cases s.archive a <;> simp
